import Mathlib

/-!
Verification of the us-flag-status repository: a scraper handler
(src/scraper/scraper_handler.py) that derives a flag-status record from an
AI-inference response and writes `current.json`, `index.json` and archive
copies into a blob store, and an API handler (src/api/api_handler.py) that
reads them back.  Python's json-decoded values are embedded as the `Json`
inductive; the S3 bucket is an association list of keys to stored `Json`
documents, kept in lexicographic key order to mirror S3's listing order;
the `json` library's `loads` and Python's `str()` on arbitrary values are
collaborator parameters.
-/

namespace USFlag

/-- A Python value obtained from `json.loads` (or built by the handlers):
`null`/`bool`/`num`/`str`/`arr`/`obj` mirror None, bool, number, str, list,
dict.  Dicts are association lists in insertion order with unique keys. -/
inductive Json where
  | null
  | bool (b : Bool)
  | num (n : Int)
  | str (s : String)
  | arr (elems : List Json)
  | obj (fields : List (String × Json))

/-- Decidable structural equality on json values (Python `==` on values
decoded from json text compares exactly structurally for these shapes). -/
def Json.decEq : (a b : Json) → Decidable (a = b)
  | .null, .null => .isTrue rfl
  | .null, .bool _ => .isFalse (fun h => Json.noConfusion h)
  | .null, .num _ => .isFalse (fun h => Json.noConfusion h)
  | .null, .str _ => .isFalse (fun h => Json.noConfusion h)
  | .null, .arr _ => .isFalse (fun h => Json.noConfusion h)
  | .null, .obj _ => .isFalse (fun h => Json.noConfusion h)
  | .bool _, .null => .isFalse (fun h => Json.noConfusion h)
  | .bool a, .bool b =>
    match Bool.decEq a b with
    | .isTrue h => .isTrue (h ▸ rfl)
    | .isFalse h => .isFalse (fun hh => h (Json.noConfusion hh id))
  | .bool _, .num _ => .isFalse (fun h => Json.noConfusion h)
  | .bool _, .str _ => .isFalse (fun h => Json.noConfusion h)
  | .bool _, .arr _ => .isFalse (fun h => Json.noConfusion h)
  | .bool _, .obj _ => .isFalse (fun h => Json.noConfusion h)
  | .num _, .null => .isFalse (fun h => Json.noConfusion h)
  | .num _, .bool _ => .isFalse (fun h => Json.noConfusion h)
  | .num a, .num b =>
    match Int.decEq a b with
    | .isTrue h => .isTrue (h ▸ rfl)
    | .isFalse h => .isFalse (fun hh => h (Json.noConfusion hh id))
  | .num _, .str _ => .isFalse (fun h => Json.noConfusion h)
  | .num _, .arr _ => .isFalse (fun h => Json.noConfusion h)
  | .num _, .obj _ => .isFalse (fun h => Json.noConfusion h)
  | .str _, .null => .isFalse (fun h => Json.noConfusion h)
  | .str _, .bool _ => .isFalse (fun h => Json.noConfusion h)
  | .str _, .num _ => .isFalse (fun h => Json.noConfusion h)
  | .str a, .str b =>
    match String.decEq a b with
    | .isTrue h => .isTrue (h ▸ rfl)
    | .isFalse h => .isFalse (fun hh => h (Json.noConfusion hh id))
  | .str _, .arr _ => .isFalse (fun h => Json.noConfusion h)
  | .str _, .obj _ => .isFalse (fun h => Json.noConfusion h)
  | .arr _, .null => .isFalse (fun h => Json.noConfusion h)
  | .arr _, .bool _ => .isFalse (fun h => Json.noConfusion h)
  | .arr _, .num _ => .isFalse (fun h => Json.noConfusion h)
  | .arr _, .str _ => .isFalse (fun h => Json.noConfusion h)
  | .arr as, .arr bs =>
    match decEqL as bs with
    | .isTrue h => .isTrue (h ▸ rfl)
    | .isFalse h => .isFalse (fun hh => h (Json.noConfusion hh id))
  | .arr _, .obj _ => .isFalse (fun h => Json.noConfusion h)
  | .obj _, .null => .isFalse (fun h => Json.noConfusion h)
  | .obj _, .bool _ => .isFalse (fun h => Json.noConfusion h)
  | .obj _, .num _ => .isFalse (fun h => Json.noConfusion h)
  | .obj _, .str _ => .isFalse (fun h => Json.noConfusion h)
  | .obj _, .arr _ => .isFalse (fun h => Json.noConfusion h)
  | .obj fs, .obj gs =>
    match decEqF fs gs with
    | .isTrue h => .isTrue (h ▸ rfl)
    | .isFalse h => .isFalse (fun hh => h (Json.noConfusion hh id))
where
  decEqL : (as bs : List Json) → Decidable (as = bs)
    | [], [] => .isTrue rfl
    | [], _ :: _ => .isFalse (fun h => List.noConfusion h)
    | _ :: _, [] => .isFalse (fun h => List.noConfusion h)
    | a :: as, b :: bs =>
      match Json.decEq a b, decEqL as bs with
      | .isTrue h1, .isTrue h2 => .isTrue (h1 ▸ h2 ▸ rfl)
      | .isFalse h1, _ => .isFalse (fun hh => h1 (List.noConfusion hh (fun h _ => h)))
      | _, .isFalse h2 => .isFalse (fun hh => h2 (List.noConfusion hh (fun _ h => h)))
  decEqF : (fs gs : List (String × Json)) → Decidable (fs = gs)
    | [], [] => .isTrue rfl
    | [], _ :: _ => .isFalse (fun h => List.noConfusion h)
    | _ :: _, [] => .isFalse (fun h => List.noConfusion h)
    | (k, v) :: fs, (k2, v2) :: gs =>
      match String.decEq k k2, Json.decEq v v2, decEqF fs gs with
      | .isTrue h1, .isTrue h2, .isTrue h3 => .isTrue (by rw [h1, h2, h3])
      | .isFalse h1, _, _ =>
        .isFalse (fun hh => h1 (congrArg (fun l => (l.headD (k, v)).1) hh))
      | _, .isFalse h2, _ =>
        .isFalse (fun hh => h2 (congrArg (fun l => (l.headD (k, v)).2) hh))
      | _, _, .isFalse h3 => .isFalse (fun hh => h3 (List.noConfusion hh (fun _ h => h)))

instance : DecidableEq Json := Json.decEq

/-- Python truthiness of a json value (`if not json_data` etc.). -/
def pyTruthy : Json → Bool
  | .null => false
  | .bool b => b
  | .num n => n != 0
  | .str s => !s.isEmpty
  | .arr xs => !xs.isEmpty
  | .obj fs => !fs.isEmpty

/-- Lookup of a key in a dict's field list (`d.get(k)` / `d[k]`). -/
def fieldGet : List (String × Json) → String → Option Json
  | [], _ => none
  | (k', v) :: rest, k => if k = k' then some v else fieldGet rest k

/-- `d.get(k)`: `none` both when the value is not a dict (Python would raise
on `.get`; call sites handle that case separately) and when the key is
absent (Python returns None). -/
def Json.get (j : Json) (k : String) : Option Json :=
  match j with
  | .obj fs => fieldGet fs k
  | _ => none

/-- Dict item assignment on the field list: replace in place, else append
(Python dicts keep insertion order and update values in place). -/
def setFields : List (String × Json) → String → Json → List (String × Json)
  | [], k, v => [(k, v)]
  | (k', v') :: rest, k, v =>
    if k' = k then (k, v) :: rest else (k', v') :: setFields rest k v

/-- `d[k] = v`; `none` when the value is not a dict (Python TypeError). -/
def Json.set (j : Json) (k : String) (v : Json) : Option Json :=
  match j with
  | .obj fs => some (.obj (setFields fs k v))
  | _ => none

/-- The opening-brace character, written by code point to keep braces out
of literals. -/
def lbrace : Char := Char.ofNat 123

/-- The closing-brace character. -/
def rbrace : Char := Char.ofNat 125

/-- `re.search(r'\x7b.*\x7d', text, re.DOTALL)` from extract_flag_data:
with a greedy `.*` over a DOTALL dot, the match (when one exists) runs from
the first opening brace to the last closing brace after it; since the
leftmost viable start is the first opening brace of the whole string, a
match exists exactly when the last closing brace lies strictly after the
first opening brace. -/
def braceBlock (s : String) : Option String :=
  let cs := s.data
  match cs.findIdx? (fun c => c = lbrace), cs.reverse.findIdx? (fun c => c = rbrace) with
  | some i, some rj =>
    let j := cs.length - 1 - rj
    if i < j then some (String.mk ((cs.drop i).take (j - i + 1))) else none
  | _, _ => none

/-- How a Python exception escapes extract_flag_data: `decode` stands for
json.JSONDecodeError (or KeyError), which its `except` clause catches;
`other` stands for TypeError/AttributeError, which propagate out (and are
then caught by search_flag_proclamations' catch-all). -/
inductive PyErr where
  | decode
  | other
  deriving DecidableEq

/-- `content = bedrock_response.get('content', [])` followed by
`for item in content:` — a missing key defaults to the empty list; a
non-iterable value raises TypeError; iterating a non-empty string or dict
yields characters/keys whose `.get` then raises AttributeError; empty
strings and dicts iterate zero times. -/
def getContentItems (resp : Json) : Except PyErr (List Json) :=
  match resp with
  | .obj fs =>
    match fieldGet fs "content" with
    | none => .ok []
    | some (.arr xs) => .ok xs
    | some (.str s) => if s.isEmpty then .ok [] else .error .other
    | some (.obj gs) => if gs.isEmpty then .ok [] else .error .other
    | some _ => .error .other
  | _ => .error .other

/-- The `for item in content:` loop of extract_flag_data: the first text
item whose text holds a brace-delimited block decides — `json.loads` on
that block either succeeds (assign and break) or raises JSONDecodeError;
items without a block are skipped; a non-dict item or a non-string text
value raises an uncaught error. -/
def loopItems (loads : String → Option Json) : List Json → Except PyErr (Option Json)
  | [] => .ok none
  | item :: rest =>
    match item with
    | .obj fs =>
      match fieldGet fs "type" with
      | some (.str "text") =>
        match fieldGet fs "text" with
        | none => loopItems loads rest
        | some (.str s) =>
          match braceBlock s with
          | some block =>
            match loads block with
            | some j => .ok (some j)
            | none => .error .decode
          | none => loopItems loads rest
        | some _ => .error .other
      | _ => loopItems loads rest
    | _ => .error .other

/-- The safe default record returned when extract_flag_data catches a
parse failure. -/
def safeDefault (now : String) : Json :=
  .obj [("status", .str "full_staff"),
        ("reason", .str "Unable to parse flag status"),
        ("proclamation_url", .null),
        ("last_updated", .str now)]

/-- The body of extract_flag_data's `try` block: locate a block in the
content items; if none was assigned or the assigned value is falsy, fall
back to `json.loads(str(bedrock_response))`; stamp `last_updated`; backfill
missing `status` and `reason`.  `loads` is the json library, `pyStr` is
Python's `str()` on the decoded response, `now` the current UTC timestamp
string. -/
def extractBody (loads : String → Option Json) (pyStr : Json → String) (now : String)
    (resp : Json) : Except PyErr Json :=
  match getContentItems resp with
  | .error e => .error e
  | .ok items =>
    match loopItems loads items with
    | .error e => .error e
    | .ok jd0 =>
      let fb : Except PyErr Json :=
        match loads (pyStr resp) with
        | some j2 => .ok j2
        | none => .error .decode
      let jd1 : Except PyErr Json :=
        match jd0 with
        | some j => if pyTruthy j then .ok j else fb
        | none => fb
      match jd1 with
      | .error e => .error e
      | .ok j1 =>
        match j1.set "last_updated" (.str now) with
        | none => .error .other
        | some j2 =>
          let j3 := if (j2.get "status").isNone
                    then (j2.set "status" (.str "full_staff")).getD j2 else j2
          let j4 := if (j3.get "reason").isNone
                    then (j3.set "reason" (.str "No active proclamations")).getD j3 else j3
          .ok j4

/-- extract_flag_data: run the body; its `except (JSONDecodeError, KeyError)`
clause converts a decode failure into the safe default, while other
exceptions propagate (`Except.error ()`). -/
def extract_flag_data (loads : String → Option Json) (pyStr : Json → String)
    (now : String) (resp : Json) : Except Unit Json :=
  match extractBody loads pyStr now resp with
  | .ok j => .ok j
  | .error .decode => .ok (safeDefault now)
  | .error .other => .error ()

/-- search_flag_proclamations: `bedrockResp = none` models the
bedrock.invoke_model call (or reading its body) raising; any exception from
extract_flag_data is caught by the catch-all and turned into None. -/
def search_flag_proclamations (loads : String → Option Json) (pyStr : Json → String)
    (now : String) (bedrockResp : Option Json) : Option Json :=
  match bedrockResp with
  | none => none
  | some r =>
    match extract_flag_data loads pyStr now r with
    | .ok j => some j
    | .error _ => none

/-- The S3 bucket: keys to stored json documents, kept sorted in
lexicographic key order (S3 lists objects in that order). -/
abbrev Store := List (String × Json)

/-- get_object by key; `none` models the NoSuchKey error. -/
def getObject : Store → String → Option Json
  | [], _ => none
  | (k', v) :: rest, k => if k = k' then some v else getObject rest k

/-- Lexicographic order on character lists (S3 key order). -/
def charsLt : List Char → List Char → Bool
  | _, [] => false
  | [], _ :: _ => true
  | a :: as, b :: bs => if a = b then charsLt as bs else decide (a.toNat < b.toNat)

/-- Lexicographic order on keys. -/
def strLt (a b : String) : Bool := charsLt a.data b.data

/-- put_object: overwrite the value at the key, inserting new keys at
their sorted position. -/
def putObject : Store → String → Json → Store
  | [], k, v => [(k, v)]
  | (k', v') :: rest, k, v =>
    if k = k' then (k, v) :: rest
    else if strLt k k' then (k, v) :: (k', v') :: rest
    else (k', v') :: putObject rest k v

/-- Does the needle occur at the start of the haystack? -/
def listStartsWith : List Char → List Char → Bool
  | [], _ => true
  | _ :: _, [] => false
  | a :: as, b :: bs => a = b && listStartsWith as bs

/-- Does the needle occur anywhere in the haystack? -/
def occursIn : List Char → List Char → Bool
  | n, [] => n.isEmpty
  | n, c :: rest => listStartsWith n (c :: rest) || occursIn n rest

/-- Python `needle in hay` on strings (substring containment). -/
def substrB (needle hay : String) : Bool := occursIn needle.data hay.data

/-- Does `s` start with `pre`? -/
def strStartsWith (pre s : String) : Bool := listStartsWith pre.data s.data

/-- list_objects_v2 with a key-prefix filter: all stored pairs whose key
starts with the given string, in stored (lexicographic) order, as the
paginated listing flattens to. -/
def listObjects (st : Store) (pre : String) : Store :=
  st.filter (fun kv => strStartsWith pre kv.1)

/-- `flag_data.get('proclamation_id')`, with Python None as `Json.null`. -/
def pidOf (flag : Json) : Json := (flag.get "proclamation_id").getD .null

/-- `flag_data.get('status') == 'half_staff'`. -/
def isHalfStaff (flag : Json) : Bool :=
  match flag.get "status" with
  | some (.str s) => s = "half_staff"
  | _ => false

/-- The index transformation of update_index (lines 193-208): append the id
to `active_proclamations` when the new status is half_staff with a truthy
id (KeyError/TypeError on a missing or non-list field is re-raised by the
handler's `except`, modelled as `Except.error ()`), else reset the field to
the empty list; prepend a truthy, not-yet-present id to
`recent_proclamations` and truncate to 10; stamp `last_updated` from the
flag record. -/
def update_index_data (flag : Json) (idx : Json) : Except Unit Json :=
  let pid := pidOf flag
  let step1 : Except Unit Json :=
    if isHalfStaff flag ∧ pyTruthy pid then
      match idx.get "active_proclamations" with
      | some (.arr a) =>
        if pid ∈ a then .ok idx
        else .ok ((idx.set "active_proclamations" (.arr (a ++ [pid]))).getD idx)
      | _ => .error ()
    else
      match idx.set "active_proclamations" (.arr []) with
      | some j => .ok j
      | none => .error ()
  match step1 with
  | .error e => .error e
  | .ok idx1 =>
    let step2 : Except Unit Json :=
      if pyTruthy pid then
        match idx1.get "recent_proclamations" with
        | some (.arr r) =>
          if pid ∈ r then .ok idx1
          else .ok ((idx1.set "recent_proclamations" (.arr ((pid :: r).take 10))).getD idx1)
        | _ => .error ()
      else .ok idx1
    match step2 with
    | .error e => .error e
    | .ok idx2 =>
      match idx2.set "last_updated" ((flag.get "last_updated").getD .null) with
      | some j => .ok j
      | none => .error ()

/-- update_index's read of the existing index: `index.json` from the store,
or the fresh two-field index on NoSuchKey. -/
def read_index (st : Store) : Json :=
  match getObject st "index.json" with
  | some j => j
  | none => .obj [("active_proclamations", .arr []), ("recent_proclamations", .arr [])]

/-- update_index over the store: read or default the index, transform it,
write it back; a failing put (or a transformation error) is re-raised. -/
def update_index_run (putOk : String → Bool) (flag : Json) (st : Store) :
    Except Unit Store :=
  match update_index_data flag (read_index st) with
  | .error e => .error e
  | .ok idx2 =>
    if putOk "index.json" then .ok (putObject st "index.json" idx2) else .error ()

/-- save_proclamation: skip entirely when the id is falsy; otherwise write
under `proclamations/{year}/{proclamation_id}.json` (the id rendered by the
f-string via `pyStr`), swallowing a put failure. -/
def save_proclamation_run (pyStr : Json → String) (putOk : String → Bool) (year : Nat)
    (flag : Json) (st : Store) : Store :=
  let pid := pidOf flag
  if pyTruthy pid then
    let key := "proclamations/" ++ toString year ++ "/" ++ pyStr pid ++ ".json"
    if putOk key then putObject st key flag else st
  else st

/-- The scraper's lambda_handler as a run over the store: a failed
inference (or an escaped extraction error) returns 500 with no mutation; a
falsy record likewise; then current.json is written (a failed put raises to
the catch-all), the index is updated, and for half_staff records the
archive copy is attempted; the pair returned is the response status code
and the resulting store. -/
def lambda_handler_run (loads : String → Option Json) (pyStr : Json → String)
    (now : String) (putOk : String → Bool) (year : Nat)
    (bedrockResp : Option Json) (st : Store) : Nat × Store :=
  match search_flag_proclamations loads pyStr now bedrockResp with
  | none => (500, st)
  | some flag =>
    if pyTruthy flag = false then (500, st)
    else if putOk "current.json" = false then (500, st)
    else
      let st1 := putObject st "current.json" flag
      match update_index_run putOk flag st1 with
      | .error _ => (500, st1)
      | .ok st2 =>
        if isHalfStaff flag then (200, save_proclamation_run pyStr putOk year flag st2)
        else (200, st2)

/-- Iterated index transformations, one per updater run's record. -/
def apply_updates (flags : List Json) (idx : Json) : Except Unit Json :=
  match flags with
  | [] => .ok idx
  | f :: rest =>
    match update_index_data f idx with
    | .error e => .error e
    | .ok idx1 => apply_updates rest idx1

/-- The default current-status body synthesized by get_current_status on
NoSuchKey. -/
def defaultCurrent (now : String) : Json :=
  .obj [("status", .str "full_staff"),
        ("reason", .str "No active proclamations"),
        ("proclamation_url", .null),
        ("last_updated", .str now)]

/-- get_current_status: serve current.json, or the synthesized default on
NoSuchKey; the response is (HTTP status code, body before json.dumps). -/
def get_current_status (now : String) (st : Store) : Nat × Json :=
  match getObject st "current.json" with
  | some j => (200, j)
  | none => (200, defaultCurrent now)

/-- get_proclamation: a falsy id (absent path parameter or empty string) is
a 400; otherwise scan the archive listing for the first key containing the
id as a substring and serve its parsed content, else 404. -/
def get_proclamation (st : Store) (pid : Option String) : Nat × Json :=
  match pid with
  | none => (400, .obj [("error", .str "Proclamation ID required")])
  | some id =>
    if id.isEmpty then (400, .obj [("error", .str "Proclamation ID required")])
    else
      match (listObjects st "proclamations/").find? (fun kv => substrB id kv.1) with
      | some kv => (200, kv.2)
      | none => (404, .obj [("error", .str "Proclamation not found")])


/-! ## A closed-form characterization of the index transformation -/

/-- The new `active_proclamations` value of update_index: append a truthy id
of a half-staff record when absent, otherwise reset to the empty list. -/
def newActive (flag : Json) (A : List Json) : List Json :=
  if isHalfStaff flag ∧ pyTruthy (pidOf flag) then
    (if pidOf flag ∈ A then A else A ++ [pidOf flag])
  else []

/-- The new `recent_proclamations` value of update_index: prepend a truthy,
not-yet-present id and truncate to 10, else leave unchanged. -/
def newRecent (flag : Json) (R : List Json) : List Json :=
  if pyTruthy (pidOf flag) ∧ pidOf flag ∉ R then ((pidOf flag) :: R).take 10 else R

/-- Well-formedness of the stored index document: a dict whose
active/recent fields are lists, with recent deduplicated and holding at
most 10 entries. -/
def wfIndex (j : Json) : Prop :=
  (∃ fs, j = Json.obj fs)
  ∧ (∃ A, j.get "active_proclamations" = some (Json.arr A))
  ∧ (∃ R, j.get "recent_proclamations" = some (Json.arr R) ∧ R.Nodup ∧ R.length ≤ 10)

/-! ## Sample collaborator instantiations and concrete data for witnesses -/

/-- A sample instantiation of Python `str()` for witnesses; it agrees with
Python on strings (`str` of a Python str is itself), the only case the
handlers' key construction relies on. -/
def pyStr0 : Json → String
  | .str s => s
  | _ => ""

/-- Sample free-form model output holding an embedded brace block. -/
def sampleText : String := "Flags lowered: \x7bhalf b\x7d end"

/-- The structured record inside sampleText's brace block. -/
def sampleParsed : Json :=
  .obj [("status", .str "half_staff"), ("proclamation_id", .str "b"),
        ("reason", .str "r")]

/-- A sample json library: parses exactly sampleText's brace block. -/
def sampleLoads : String → Option Json :=
  fun s => if s = "\x7bhalf b\x7d" then some sampleParsed else none

/-- A sample bedrock response wrapping sampleText as its only text item. -/
def sampleResp : Json :=
  .obj [("content", .arr [.obj [("type", .str "text"), ("text", .str sampleText)]])]

/-- The record the updater derives from sampleResp at timestamp T0. -/
def sampleRec : Json :=
  .obj [("status", .str "half_staff"), ("proclamation_id", .str "b"),
        ("reason", .str "r"), ("last_updated", .str "T0")]

/-- A one-document archive store for the C8 witness. -/
def stC8 : Store := putObject [] "proclamations/2025/b.json" (Json.str "doc")

/-- The prior index for the C1 counterexample: one already-active id. -/
def idxPriorC1 : Json :=
  .obj [("active_proclamations", .arr [.str "a"]), ("recent_proclamations", .arr [])]

/-- The prior store for the C1 counterexample. -/
def stPriorC1 : Store := putObject [] "index.json" idxPriorC1

/-- The C1 counterexample run: a half_staff record with id "b" arriving
over an index whose active list already holds "a". -/
def runC1 : Nat × Store :=
  lambda_handler_run sampleLoads pyStr0 "T0" (fun _ => true) 2025 (some sampleResp) stPriorC1

/-- A parsed record with half_staff status but no proclamation_id. -/
def parsedNoPid : Json := .obj [("status", .str "half_staff"), ("reason", .str "x")]

/-- A sample json library parsing exactly the no-id brace block. -/
def loadsNoPid : String → Option Json :=
  fun s => if s = "\x7bhalf nopid\x7d" then some parsedNoPid else none

/-- A bedrock response whose embedded record lacks a proclamation_id. -/
def respNoPid : Json :=
  .obj [("content", .arr [.obj [("type", .str "text"),
        ("text", .str "note \x7bhalf nopid\x7d")]])]

/-- The run over respNoPid from an empty store. -/
def runNoPid : Nat × Store :=
  lambda_handler_run loadsNoPid pyStr0 "T0" (fun _ => true) 2025 (some respNoPid) []

/-- The record runNoPid persists as current status. -/
def recNoPid : Json :=
  .obj [("status", .str "half_staff"), ("reason", .str "x"),
        ("last_updated", .str "T0")]

/-- A parsed record with half_staff status and an explicit null id. -/
def parsedNullPid : Json :=
  .obj [("status", .str "half_staff"), ("proclamation_id", Json.null),
        ("reason", .str "q")]

/-- A sample json library parsing exactly the null-id brace block. -/
def loadsNullPid : String → Option Json :=
  fun s => if s = "\x7bhalf nullpid\x7d" then some parsedNullPid else none

/-- A bedrock response whose embedded record carries a null id. -/
def respNullPid : Json :=
  .obj [("content", .arr [.obj [("type", .str "text"),
        ("text", .str "nb \x7bhalf nullpid\x7d")]])]

/-- The record derived from respNullPid at timestamp T0. -/
def recNullPid : Json :=
  .obj [("status", .str "half_staff"), ("proclamation_id", Json.null),
        ("reason", .str "q"), ("last_updated", .str "T0")]

/-- An older archived record whose id contains the later one. -/
def recOldC5 : Json :=
  .obj [("proclamation_id", .str "x-memorial"), ("status", .str "half_staff"),
        ("reason", .str "old")]

/-- A newer record to archive, with id "x". -/
def recNewC5 : Json :=
  .obj [("proclamation_id", .str "x"), ("status", .str "half_staff"),
        ("reason", .str "new")]

/-- A store already holding the 2024 archive record. -/
def stPriorC5 : Store := putObject [] "proclamations/2024/x-memorial.json" recOldC5

/-- The store after the archive step writes the id-"x" record for 2025. -/
def stAfterC5 : Store := save_proclamation_run pyStr0 (fun _ => true) 2025 recNewC5 stPriorC5

/-- Three consecutive index updates carrying the same id "b". -/
def flagsC4 : List Json := [sampleParsed, sampleParsed, sampleParsed]

/-- The fresh index document (as update_index creates it on NoSuchKey). -/
def idxEmpty : Json :=
  .obj [("active_proclamations", Json.arr []), ("recent_proclamations", Json.arr [])]

/-- A response whose only text item has no brace block at all. -/
def respPlain : Json :=
  .obj [("content", .arr [.obj [("type", .str "text"), ("text", .str "no block here")]])]

/-- A parsed record missing both status and reason. -/
def parsedBare : Json := .obj [("proclamation_id", .str "z")]

/-- A sample json library parsing exactly the bare brace block. -/
def loadsBare : String → Option Json :=
  fun s => if s = "\x7bbare z\x7d" then some parsedBare else none

/-- A response whose embedded record misses status and reason. -/
def respBare : Json :=
  .obj [("content", .arr [.obj [("type", .str "text"),
        ("text", .str "hm \x7bbare z\x7d")]])]

/-- The index update_index writes in the C9 witness run: id "b" made
active and recent, stamped from the record. -/
def idxAfterC9 : Json :=
  .obj [("active_proclamations", .arr [.str "b"]),
        ("recent_proclamations", .arr [.str "b"]),
        ("last_updated", .str "T0")]

/-- A parsed record missing reason, with an out-of-enum status value. -/
def parsedBadStatus : Json := .obj [("status", .str "banana")]

/-- A sample json library parsing exactly the out-of-enum brace block. -/
def loadsBadStatus : String → Option Json :=
  fun s => if s = "\x7bbanana\x7d" then some parsedBadStatus else none

/-- A response whose embedded record has status "banana" and no reason. -/
def respBadStatus : Json :=
  .obj [("content", .arr [.obj [("type", .str "text"),
        ("text", .str "see \x7bbanana\x7d")]])]

/-- The run over respBadStatus from an empty store. -/
def runBadStatus : Nat × Store :=
  lambda_handler_run loadsBadStatus pyStr0 "T0" (fun _ => true) 2025
    (some respBadStatus) []

/-- The record runBadStatus persists as current status: the out-of-enum
status value survives, only the missing reason is backfilled. -/
def recBadStatus : Json :=
  .obj [("status", .str "banana"), ("last_updated", .str "T0"),
        ("reason", .str "No active proclamations")]

/-- A parsed record missing status, with a present-but-null reason. -/
def parsedNullReason : Json := .obj [("reason", Json.null)]

/-- A sample json library parsing exactly the null-reason brace block. -/
def loadsNullReason : String → Option Json :=
  fun s => if s = "\x7bnullreason\x7d" then some parsedNullReason else none

/-- A response whose embedded record has a null reason and no status. -/
def respNullReason : Json :=
  .obj [("content", .arr [.obj [("type", .str "text"),
        ("text", .str "nr \x7bnullreason\x7d")]])]

/-- The run over respNullReason from an empty store. -/
def runNullReason : Nat × Store :=
  lambda_handler_run loadsNullReason pyStr0 "T0" (fun _ => true) 2025
    (some respNullReason) []

/-- The record runNullReason persists as current status: the null reason
survives, only the missing status is backfilled. -/
def recNullReason : Json :=
  .obj [("reason", Json.null), ("last_updated", .str "T0"),
        ("status", .str "full_staff")]

/-! ## Helper lemmas about the embedded primitives -/

theorem fieldGet_setFields_same : ∀ (fs : List (String × Json)) (k : String) (v : Json),
    fieldGet (setFields fs k v) k = some v
  | [], k, v => by simp [setFields, fieldGet]
  | (k2, v2) :: tl, k, v => by
    by_cases h : k2 = k
    · simp [setFields, h, fieldGet]
    · have ih := fieldGet_setFields_same tl k v
      simp [setFields, h, fieldGet, Ne.symm h, ih]

theorem fieldGet_setFields_ne : ∀ (fs : List (String × Json)) (k : String) (v : Json)
    (k3 : String), k3 ≠ k → fieldGet (setFields fs k v) k3 = fieldGet fs k3
  | [], k, v, k3, h => by simp [setFields, fieldGet, h]
  | (k2, v2) :: tl, k, v, k3, h => by
    by_cases h2 : k2 = k
    · subst h2
      simp [setFields, fieldGet, h]
    · have ih := fieldGet_setFields_ne tl k v k3 h
      by_cases h3 : k3 = k2 <;> simp [setFields, fieldGet, h2, h3, ih]

theorem get_setFields_same (fs : List (String × Json)) (k : String) (v : Json) :
    (Json.obj (setFields fs k v)).get k = some v :=
  fieldGet_setFields_same fs k v

theorem get_setFields_ne (fs : List (String × Json)) (k : String) (v : Json)
    (k3 : String) (h : k3 ≠ k) :
    (Json.obj (setFields fs k v)).get k3 = (Json.obj fs).get k3 :=
  fieldGet_setFields_ne fs k v k3 h

theorem getObject_putObject_same : ∀ (st : Store) (k : String) (v : Json),
    getObject (putObject st k v) k = some v
  | [], k, v => by simp [putObject, getObject]
  | (k2, v2) :: tl, k, v => by
    by_cases h : k = k2
    · simp [putObject, h, getObject]
    · have ih := getObject_putObject_same tl k v
      by_cases h2 : strLt k k2 = true <;> simp [putObject, h, h2, getObject, ih]

theorem getObject_putObject_ne : ∀ (st : Store) (k : String) (v : Json) (k3 : String),
    k3 ≠ k → getObject (putObject st k v) k3 = getObject st k3
  | [], k, v, k3, h => by simp [putObject, getObject, h]
  | (k2, v2) :: tl, k, v, k3, h => by
    by_cases h2 : k = k2
    · subst h2
      simp [putObject, getObject, h]
    · have ih := getObject_putObject_ne tl k v k3 h
      by_cases h3 : strLt k k2 = true <;>
        by_cases h4 : k3 = k2 <;>
          simp [putObject, getObject, h, h2, Ne.symm h2, h3, h4, ih]

theorem mem_putObject_self : ∀ (st : Store) (k : String) (v : Json),
    (k, v) ∈ putObject st k v
  | [], k, v => by simp [putObject]
  | (k2, v2) :: tl, k, v => by
    by_cases h : k = k2
    · simp [putObject, h]
    · have ih := mem_putObject_self tl k v
      by_cases h2 : strLt k k2 = true <;> simp [putObject, h, h2, ih]

theorem mem_putObject : ∀ (st : Store) (k : String) (v : Json) (x : String × Json),
    x ∈ putObject st k v → x = (k, v) ∨ x ∈ st
  | [], k, v, x, hx => by simpa [putObject] using hx
  | (k2, v2) :: tl, k, v, x, hx => by
    by_cases h : k = k2
    · simp [putObject, h] at hx
      rcases hx with h1 | h1
      · exact Or.inl (by simp [h1, h])
      · exact Or.inr (List.mem_cons_of_mem _ h1)
    · by_cases h2 : strLt k k2 = true
      · simp [putObject, h, h2] at hx
        rcases hx with h1 | h1 | h1
        · exact Or.inl (by simp [h1])
        · exact Or.inr (by simp [h1])
        · exact Or.inr (List.mem_cons_of_mem _ h1)
      · simp [putObject, h, h2] at hx
        rcases hx with h1 | h1
        · exact Or.inr (by simp [h1])
        · rcases mem_putObject tl k v x h1 with h3 | h3
          · exact Or.inl h3
          · exact Or.inr (List.mem_cons_of_mem _ h3)

theorem find?_of_unique {α : Type} (p : α → Bool) :
    ∀ (l : List α) (a : α), a ∈ l → p a = true →
      (∀ x ∈ l, p x = true → x = a) → l.find? p = some a
  | [], a, h, _, _ => absurd h (List.not_mem_nil a)
  | b :: tl, a, h, hpa, huniq => by
    by_cases hb : p b = true
    · have hba : b = a := huniq b (List.mem_cons_self b tl) hb
      rw [List.find?_cons_of_pos _ hb, hba]
    · have hab : a ≠ b := fun he => hb (he ▸ hpa)
      have h2 : a ∈ tl := by
        rcases List.mem_cons.mp h with h3 | h3
        · exact absurd h3 hab
        · exact h3
      rw [List.find?_cons_of_neg _ hb]
      exact find?_of_unique p tl a h2 hpa
        (fun x hx hpx => huniq x (List.mem_cons_of_mem _ hx) hpx)

theorem listStartsWith_append (n t : List Char) : listStartsWith n (n ++ t) = true := by
  induction n with
  | nil => simp [listStartsWith]
  | cons c cs ih => simp [listStartsWith, ih]

theorem occursIn_of_listStartsWith (n h : List Char) (hs : listStartsWith n h = true) :
    occursIn n h = true := by
  cases h with
  | nil =>
    cases n with
    | nil => simp [occursIn]
    | cons c cs => simp [listStartsWith] at hs
  | cons c rest => simp [occursIn, hs]

theorem occursIn_append_left (n s t : List Char) (h : occursIn n t = true) :
    occursIn n (s ++ t) = true := by
  induction s with
  | nil => simpa using h
  | cons c cs ih => simp [occursIn, ih]

theorem occursIn_sandwich (n s t : List Char) : occursIn n (s ++ n ++ t) = true := by
  have h1 : occursIn n (n ++ t) = true :=
    occursIn_of_listStartsWith n (n ++ t) (listStartsWith_append n t)
  have h2 := occursIn_append_left n s (n ++ t) h1
  simpa [List.append_assoc] using h2

theorem pyTruthy_of_get (j : Json) (k : String) (v : Json) (h : j.get k = some v) :
    pyTruthy j = true := by
  cases j with
  | obj fs =>
    cases fs with
    | nil => simp [Json.get, fieldGet] at h
    | cons hd tl => simp [pyTruthy]
  | null => simp [Json.get] at h
  | bool b => simp [Json.get] at h
  | num n => simp [Json.get] at h
  | str s => simp [Json.get] at h
  | arr xs => simp [Json.get] at h

theorem update_index_data_fields (flag : Json) (fs : List (String × Json))
    (A R : List Json)
    (hA : (Json.obj fs).get "active_proclamations" = some (.arr A))
    (hR : (Json.obj fs).get "recent_proclamations" = some (.arr R)) :
    ∃ gs, update_index_data flag (Json.obj fs) = .ok (Json.obj gs)
      ∧ (Json.obj gs).get "active_proclamations" = some (.arr (newActive flag A))
      ∧ (Json.obj gs).get "recent_proclamations" = some (.arr (newRecent flag R))
      ∧ (Json.obj gs).get "last_updated" = some ((flag.get "last_updated").getD .null) := by
  have hk1 : ("recent_proclamations" : String) ≠ "active_proclamations" := by decide
  have hk2 : ("active_proclamations" : String) ≠ "recent_proclamations" := by decide
  have hk3 : ("active_proclamations" : String) ≠ "last_updated" := by decide
  have hk4 : ("recent_proclamations" : String) ≠ "last_updated" := by decide
  set pid := pidOf flag with hpid
  set lu := (flag.get "last_updated").getD Json.null with hlu
  by_cases hc : isHalfStaff flag ∧ pyTruthy pid
  · have hp : pyTruthy pid = true := hc.2
    by_cases hmA : pid ∈ A
    · by_cases hmR : pid ∈ R
      · refine ⟨setFields fs "last_updated" lu, ?_, ?_, ?_, ?_⟩
        · simp [update_index_data, hc, hA, hmA, hp, hR, hmR, Json.set]
        · rw [get_setFields_ne _ _ _ _ hk3, hA, newActive, if_pos hc, if_pos hmA]
        · rw [get_setFields_ne _ _ _ _ hk4, hR, newRecent, if_neg (by simp [hmR])]
        · exact get_setFields_same fs "last_updated" lu
      · refine ⟨setFields (setFields fs "recent_proclamations"
            (.arr ((pid :: R).take 10))) "last_updated" lu, ?_, ?_, ?_, ?_⟩
        · simp [update_index_data, hc, hA, hmA, hp, hR, hmR, Json.set]
        · rw [get_setFields_ne _ _ _ _ hk3, get_setFields_ne _ _ _ _ hk2, hA,
            newActive, if_pos hc, if_pos hmA]
        · rw [get_setFields_ne _ _ _ _ hk4, get_setFields_same,
            newRecent, if_pos ⟨hp, hmR⟩]
        · exact get_setFields_same _ "last_updated" lu
    · have hR1 : (Json.obj (setFields fs "active_proclamations"
          (.arr (A ++ [pid])))).get "recent_proclamations" = some (.arr R) := by
        rw [get_setFields_ne _ _ _ _ hk1]
        exact hR
      by_cases hmR : pid ∈ R
      · refine ⟨setFields (setFields fs "active_proclamations"
            (.arr (A ++ [pid]))) "last_updated" lu, ?_, ?_, ?_, ?_⟩
        · simp [update_index_data, hc, hA, hmA, hp, hR1, hmR, Json.set]
        · rw [get_setFields_ne _ _ _ _ hk3, get_setFields_same,
            newActive, if_pos hc, if_neg hmA]
        · rw [get_setFields_ne _ _ _ _ hk4, hR1, newRecent, if_neg (by simp [hmR])]
        · exact get_setFields_same _ "last_updated" lu
      · refine ⟨setFields (setFields (setFields fs "active_proclamations"
            (.arr (A ++ [pid]))) "recent_proclamations"
            (.arr ((pid :: R).take 10))) "last_updated" lu, ?_, ?_, ?_, ?_⟩
        · simp [update_index_data, hc, hA, hmA, hp, hR1, hmR, Json.set]
        · rw [get_setFields_ne _ _ _ _ hk3, get_setFields_ne _ _ _ _ hk2,
            get_setFields_same, newActive, if_pos hc, if_neg hmA]
        · rw [get_setFields_ne _ _ _ _ hk4, get_setFields_same,
            newRecent, if_pos ⟨hp, hmR⟩]
        · exact get_setFields_same _ "last_updated" lu
  · have hR1 : (Json.obj (setFields fs "active_proclamations"
        (.arr []))).get "recent_proclamations" = some (.arr R) := by
      rw [get_setFields_ne _ _ _ _ hk1]
      exact hR
    by_cases hp : pyTruthy pid = true
    · have hh : isHalfStaff flag = false := by
        cases hb : isHalfStaff flag
        · rfl
        · exact absurd ⟨hb, hp⟩ hc
      by_cases hmR : pid ∈ R
      · refine ⟨setFields (setFields fs "active_proclamations"
            (.arr [])) "last_updated" lu, ?_, ?_, ?_, ?_⟩
        · simp [update_index_data, hc, hh, hp, hR1, hmR, Json.set]
        · rw [get_setFields_ne _ _ _ _ hk3, get_setFields_same, newActive, if_neg hc]
        · rw [get_setFields_ne _ _ _ _ hk4, hR1, newRecent, if_neg (by simp [hmR])]
        · exact get_setFields_same _ "last_updated" lu
      · refine ⟨setFields (setFields (setFields fs "active_proclamations"
            (.arr [])) "recent_proclamations"
            (.arr ((pid :: R).take 10))) "last_updated" lu, ?_, ?_, ?_, ?_⟩
        · simp [update_index_data, hc, hh, hp, hR1, hmR, Json.set]
        · rw [get_setFields_ne _ _ _ _ hk3, get_setFields_ne _ _ _ _ hk2,
            get_setFields_same, newActive, if_neg hc]
        · rw [get_setFields_ne _ _ _ _ hk4, get_setFields_same,
            newRecent, if_pos ⟨hp, hmR⟩]
        · exact get_setFields_same _ "last_updated" lu
    · refine ⟨setFields (setFields fs "active_proclamations"
          (.arr [])) "last_updated" lu, ?_, ?_, ?_, ?_⟩
      · simp [update_index_data, hc, hp, Json.set]
      · rw [get_setFields_ne _ _ _ _ hk3, get_setFields_same, newActive, if_neg hc]
      · rw [get_setFields_ne _ _ _ _ hk4, hR1, newRecent, if_neg (by simp [hp])]
      · exact get_setFields_same _ "last_updated" lu


/-! ## Claim theorems -/

/-- C6: for every Updater invocation in which the inference step yields no
record (the model call raised, or the extraction raised an uncaught
error — exactly the cases where search_flag_proclamations returns None),
the run returns the 500 error result and the store is exactly its prior
state: current.json, index.json and the archive namespace are untouched. -/
theorem C6_no_write_on_inference_failure (loads : String → Option Json)
    (pyStr : Json → String) (now : String) (putOk : String → Bool) (year : Nat)
    (bedrockResp : Option Json) (st : Store)
    (h : search_flag_proclamations loads pyStr now bedrockResp = none) :
    lambda_handler_run loads pyStr now putOk year bedrockResp st = (500, st) := by
  simp [lambda_handler_run, h]

/-- Witness for C6: a raising inference call over a non-empty store leaves
it untouched and reports 500. -/
theorem C6_no_write_on_inference_failure_witness :
    lambda_handler_run (fun _ => none) pyStr0 "T0" (fun _ => true) 2025 none
      [("current.json", Json.null)] = (500, [("current.json", Json.null)]) :=
  C6_no_write_on_inference_failure (fun _ => none) pyStr0 "T0" (fun _ => true) 2025
    none [("current.json", Json.null)] rfl

/-- C7: GetCurrentStatus over a store with no current-status document
returns 200 whose body is exactly the synthesized default (full_staff,
reason "No active proclamations", null proclamation_url, the current
timestamp); the missing document is never surfaced as an error. -/
theorem C7_current_default (now : String) (st : Store)
    (h : getObject st "current.json" = none) :
    get_current_status now st = (200, defaultCurrent now) := by
  simp [get_current_status, h]

/-- Witness for C7 at the empty store. -/
theorem C7_current_default_witness :
    get_current_status "T0" [] = (200, defaultCurrent "T0") :=
  C7_current_default "T0" [] rfl

/-- C8: get_proclamation returns 400 exactly when the id is absent or
empty; a non-empty id contained in no key of the archive listing yields
404 with the not-found body after the full scan; and when the listing has
a first key containing the id, the response is 200 with that key's stored
content. -/
theorem C8_get_proclamation_spec (st : Store) :
    (∀ pid : Option String,
        (get_proclamation st pid).1 = 400 ↔ (pid = none ∨ pid = some ""))
    ∧ (∀ id : String, id ≠ "" →
        ((∀ kv ∈ listObjects st "proclamations/", substrB id kv.1 = false) →
            get_proclamation st (some id)
              = (404, .obj [("error", .str "Proclamation not found")]))
        ∧ (∀ kv, (listObjects st "proclamations/").find? (fun x => substrB id x.1)
              = some kv →
            get_proclamation st (some id) = (200, kv.2))) := by
  constructor
  · intro pid
    match pid with
    | none => simp [get_proclamation]
    | some id =>
      by_cases he : id.isEmpty = true
      · have hid : id = "" := (String.isEmpty_iff id).mp he
        subst hid
        exact Iff.intro (fun _ => Or.inr rfl) (fun _ => rfl)
      · have hid : ¬ id = "" := fun hh => he ((String.isEmpty_iff id).mpr hh)
        cases hf : (listObjects st "proclamations/").find? (fun x => substrB id x.1) with
        | none => simp [get_proclamation, he, hf, hid]
        | some kv => simp [get_proclamation, he, hf, hid]
  · intro id hid
    have he : ¬ id.isEmpty = true := fun hh => hid ((String.isEmpty_iff id).mp hh)
    constructor
    · intro hall
      have hf : (listObjects st "proclamations/").find? (fun x => substrB id x.1) = none :=
        List.find?_eq_none.mpr (fun x hx => by simp [hall x hx])
      simp [get_proclamation, he, hf]
    · intro kv hf
      simp [get_proclamation, he, hf]

/-- Witness for C8: empty id gives 400; a non-matching id gives 404; a
contained id serves the first matching stored document. -/
theorem C8_get_proclamation_spec_witness :
    (get_proclamation stC8 (some "")).1 = 400
    ∧ get_proclamation stC8 (some "zz")
        = (404, .obj [("error", .str "Proclamation not found")])
    ∧ get_proclamation stC8 (some "b") = (200, Json.str "doc") := by
  refine ⟨?_, ?_, ?_⟩
  · exact ((C8_get_proclamation_spec stC8).1 (some "")).mpr (Or.inr rfl)
  · exact ((C8_get_proclamation_spec stC8).2 "zz" (by decide)).1 (by decide)
  · exact ((C8_get_proclamation_spec stC8).2 "b" (by decide)).2
      ("proclamations/2025/b.json", Json.str "doc") (by decide)


/-- C1 counterexample: a single Updater run derives a half_staff record
with proclamation_id "b" (persisted as current.json), yet after the run
the stored index's active_proclamations holds TWO entries — the prior id
"a" was retained, not cleared — refuting "exactly one entry, equal to that
record's proclamation_id, regardless of the index's prior contents". -/
theorem C1_counterexample :
    runC1.1 = 200
    ∧ getObject runC1.2 "current.json" = some sampleRec
    ∧ sampleRec.get "status" = some (.str "half_staff")
    ∧ sampleRec.get "proclamation_id" = some (.str "b")
    ∧ (getObject runC1.2 "index.json").bind (fun j => j.get "active_proclamations")
        = some (.arr [.str "a", .str "b"])
    ∧ [Json.str "a", Json.str "b"] ≠ [Json.str "b"] :=
  ⟨rfl, rfl, rfl, rfl, rfl, by decide⟩

/-- C1 (amended): after an index update for a derived record, a half_staff
status with truthy proclamation_id APPENDS the id to the stored active
list when absent — prior entries are retained, so the list equals [id]
exactly when the prior active list was empty — while any other record
resets the stored active list to empty. -/
theorem C1_amended_active_update (putOk : String → Bool) (flag : Json) (st : Store)
    (fs : List (String × Json)) (A R : List Json)
    (hidx : read_index st = Json.obj fs)
    (hA : (Json.obj fs).get "active_proclamations" = some (.arr A))
    (hR : (Json.obj fs).get "recent_proclamations" = some (.arr R))
    (hput : putOk "index.json" = true) :
    ∃ gs, update_index_run putOk flag st
        = .ok (putObject st "index.json" (Json.obj gs))
      ∧ getObject (putObject st "index.json" (Json.obj gs)) "index.json"
          = some (Json.obj gs)
      ∧ (Json.obj gs).get "active_proclamations" = some (.arr (newActive flag A))
      ∧ ((isHalfStaff flag = true ∧ pyTruthy (pidOf flag) = true) →
          newActive flag A = (if pidOf flag ∈ A then A else A ++ [pidOf flag])
          ∧ pidOf flag ∈ newActive flag A
          ∧ (A = [] → newActive flag A = [pidOf flag]))
      ∧ (¬ (isHalfStaff flag = true ∧ pyTruthy (pidOf flag) = true) →
          newActive flag A = []) := by
  obtain ⟨gs, heq, hA2, hR2, hL2⟩ := update_index_data_fields flag fs A R hA hR
  refine ⟨gs, ?_, getObject_putObject_same st "index.json" (Json.obj gs), hA2, ?_, ?_⟩
  · simp [update_index_run, hidx, heq, hput]
  · intro hc
    refine ⟨by rw [newActive, if_pos hc], ?_, ?_⟩
    · rw [newActive, if_pos hc]
      by_cases hm : pidOf flag ∈ A
      · simp [hm]
      · simp [hm]
    · intro hAnil
      subst hAnil
      rw [newActive, if_pos hc]
      simp
  · intro hc
    rw [newActive, if_neg hc]

/-- Witness for C1 (amended) at a concrete half_staff record over the
fresh index in an empty store. -/
theorem C1_amended_active_update_witness :
    ∃ gs, update_index_run (fun _ => true) sampleRec []
        = .ok (putObject [] "index.json" (Json.obj gs))
      ∧ getObject (putObject [] "index.json" (Json.obj gs)) "index.json"
          = some (Json.obj gs)
      ∧ (Json.obj gs).get "active_proclamations" = some (.arr [.str "b"]) := by
  obtain ⟨gs, h1, h2, h3, h4, h5⟩ :=
    C1_amended_active_update (fun _ => true) sampleRec [] _ [] [] rfl rfl rfl rfl
  exact ⟨gs, h1, h2, h3⟩


/-- Shared helper: when the loop locates and parses a (truthy) dict,
extract_flag_data succeeds with that dict stamped and backfilled — all
other fields are preserved verbatim, a missing status becomes full_staff,
a missing reason becomes "No active proclamations", and a PRESENT status
or reason value (null or out-of-enum included) is preserved verbatim. -/
theorem extract_obj_spec (loads : String → Option Json) (pyStr : Json → String)
    (now : String) (resp : Json) (items : List Json) (fs : List (String × Json))
    (hitems : getContentItems resp = .ok items)
    (hloop : loopItems loads items = .ok (some (Json.obj fs)))
    (hne : fs ≠ []) :
    ∃ gs, extract_flag_data loads pyStr now resp = .ok (Json.obj gs)
      ∧ (∀ k, k ≠ "last_updated" → k ≠ "status" → k ≠ "reason" →
          (Json.obj gs).get k = (Json.obj fs).get k)
      ∧ ((Json.obj fs).get "status" = none →
          (Json.obj gs).get "status" = some (.str "full_staff"))
      ∧ ((Json.obj fs).get "reason" = none →
          (Json.obj gs).get "reason" = some (.str "No active proclamations"))
      ∧ (∀ v, (Json.obj fs).get "status" = some v →
          (Json.obj gs).get "status" = some v)
      ∧ (∀ v, (Json.obj fs).get "reason" = some v →
          (Json.obj gs).get "reason" = some v) := by
  have htr : pyTruthy (Json.obj fs) = true := by
    cases fs with
    | nil => exact absurd rfl hne
    | cons hd tl => simp [pyTruthy]
  have hsl : ("status" : String) ≠ "last_updated" := by decide
  have hrl : ("reason" : String) ≠ "last_updated" := by decide
  have hsr : ("status" : String) ≠ "reason" := by decide
  have hrs : ("reason" : String) ≠ "status" := by decide
  by_cases hs : (Json.obj (setFields fs "last_updated" (Json.str now))).get "status" = none
  · by_cases hr : (Json.obj (setFields (setFields fs "last_updated" (Json.str now))
        "status" (Json.str "full_staff"))).get "reason" = none
    · refine ⟨setFields (setFields (setFields fs "last_updated" (Json.str now))
          "status" (Json.str "full_staff")) "reason"
          (Json.str "No active proclamations"), ?_, ?_, ?_, ?_, ?_, ?_⟩
      · simp [extract_flag_data, extractBody, hitems, hloop, htr, Json.set, hs, hr,
          Option.isNone_iff_eq_none]
      · intro k hk1 hk2 hk3
        rw [get_setFields_ne _ _ _ _ hk3, get_setFields_ne _ _ _ _ hk2,
          get_setFields_ne _ _ _ _ hk1]
      · intro _
        rw [get_setFields_ne _ _ _ _ hsr, get_setFields_same]
      · intro _
        rw [get_setFields_same]
      · intro v hv
        rw [get_setFields_ne _ _ _ _ hsl, hv] at hs
        exact Option.noConfusion hs
      · intro v hv
        rw [get_setFields_ne _ _ _ _ hrs, get_setFields_ne _ _ _ _ hrl, hv] at hr
        exact Option.noConfusion hr
    · refine ⟨setFields (setFields fs "last_updated" (Json.str now)) "status"
          (Json.str "full_staff"), ?_, ?_, ?_, ?_, ?_, ?_⟩
      · simp [extract_flag_data, extractBody, hitems, hloop, htr, Json.set, hs, hr,
          Option.isNone_iff_eq_none]
      · intro k hk1 hk2 hk3
        rw [get_setFields_ne _ _ _ _ hk2, get_setFields_ne _ _ _ _ hk1]
      · intro _
        rw [get_setFields_same]
      · intro hnone
        rw [get_setFields_ne _ _ _ _ hrs, get_setFields_ne _ _ _ _ hrl] at hr
        exact absurd hnone hr
      · intro v hv
        rw [get_setFields_ne _ _ _ _ hsl, hv] at hs
        exact Option.noConfusion hs
      · intro v hv
        rw [get_setFields_ne _ _ _ _ hrs, get_setFields_ne _ _ _ _ hrl, hv]
  · by_cases hr : (Json.obj (setFields fs "last_updated" (Json.str now))).get
        "reason" = none
    · refine ⟨setFields (setFields fs "last_updated" (Json.str now)) "reason"
          (Json.str "No active proclamations"), ?_, ?_, ?_, ?_, ?_, ?_⟩
      · simp [extract_flag_data, extractBody, hitems, hloop, htr, Json.set, hs, hr,
          Option.isNone_iff_eq_none]
      · intro k hk1 hk2 hk3
        rw [get_setFields_ne _ _ _ _ hk3, get_setFields_ne _ _ _ _ hk1]
      · intro hnone
        rw [get_setFields_ne _ _ _ _ hsl] at hs
        exact absurd hnone hs
      · intro _
        rw [get_setFields_same]
      · intro v hv
        rw [get_setFields_ne _ _ _ _ hsr, get_setFields_ne _ _ _ _ hsl, hv]
      · intro v hv
        rw [get_setFields_ne _ _ _ _ hrl, hv] at hr
        exact Option.noConfusion hr
    · refine ⟨setFields fs "last_updated" (Json.str now), ?_, ?_, ?_, ?_, ?_, ?_⟩
      · simp [extract_flag_data, extractBody, hitems, hloop, htr, Json.set, hs, hr,
          Option.isNone_iff_eq_none]
      · intro k hk1 hk2 hk3
        rw [get_setFields_ne _ _ _ _ hk1]
      · intro hnone
        rw [get_setFields_ne _ _ _ _ hsl] at hs
        exact absurd hnone hs
      · intro hnone
        rw [get_setFields_ne _ _ _ _ hrl] at hr
        exact absurd hnone hr
      · intro v hv
        rw [get_setFields_ne _ _ _ _ hsl, hv]
      · intro v hv
        rw [get_setFields_ne _ _ _ _ hrl, hv]

/-- C2 counterexample: the Updater completes (200) while persisting as
current.json a record whose status is half_staff and whose
proclamation_id is absent — the half_staff-requires-id invariant is not
enforced on persisted records. -/
theorem C2_counterexample :
    runNoPid.1 = 200
    ∧ getObject runNoPid.2 "current.json" = some recNoPid
    ∧ recNoPid.get "status" = some (.str "half_staff")
    ∧ recNoPid.get "proclamation_id" = none :=
  ⟨rfl, rfl, rfl, rfl⟩

/-- C2 (amended): the Updater never adds or removes a proclamation_id —
the record it persists carries exactly the parsed data's proclamation_id —
so the invariant "half_staff requires a non-null id" holds exactly when
the AI-supplied data already satisfies it; a half_staff record without an
id is persisted as-is (see the counterexample). -/
theorem C2_amended_pid_preserved (loads : String → Option Json) (pyStr : Json → String)
    (now : String) (resp : Json) (items : List Json) (fs : List (String × Json))
    (hitems : getContentItems resp = .ok items)
    (hloop : loopItems loads items = .ok (some (Json.obj fs)))
    (hne : fs ≠ []) :
    ∃ r, extract_flag_data loads pyStr now resp = .ok r
      ∧ r.get "proclamation_id" = (Json.obj fs).get "proclamation_id" := by
  obtain ⟨gs, heq, hpres, _, _, _, _⟩ :=
    extract_obj_spec loads pyStr now resp items fs hitems hloop hne
  exact ⟨Json.obj gs, heq, hpres "proclamation_id" (by decide) (by decide) (by decide)⟩

/-- Witness for C2 (amended): the sample record's id "b" survives
extraction unchanged. -/
theorem C2_amended_pid_preserved_witness :
    ∃ r, extract_flag_data sampleLoads pyStr0 "T0" sampleResp = .ok r
      ∧ r.get "proclamation_id"
          = (Json.obj [("status", Json.str "half_staff"),
              ("proclamation_id", Json.str "b"), ("reason", Json.str "r")]).get
              "proclamation_id" :=
  C2_amended_pid_preserved sampleLoads pyStr0 "T0" sampleResp _ _ rfl rfl (by decide)

/-- C3 counterexample: two in-scope responses — parseable data missing a
field — refute the blanket conclusion: a parsed block with status "banana"
(reason missing) is persisted with 200 carrying an out-of-enum status, and
a parsed block with a null reason (status missing) is persisted with 200
carrying a null reason. -/
theorem C3_counterexample :
    runBadStatus.1 = 200
    ∧ getObject runBadStatus.2 "current.json" = some recBadStatus
    ∧ recBadStatus.get "status" = some (Json.str "banana")
    ∧ Json.str "banana" ≠ Json.str "half_staff"
    ∧ Json.str "banana" ≠ Json.str "full_staff"
    ∧ runNullReason.1 = 200
    ∧ getObject runNullReason.2 "current.json" = some recNullReason
    ∧ recNullReason.get "reason" = some Json.null :=
  ⟨rfl, rfl, rfl, by decide, by decide, rfl, rfl, rfl⟩

/-- C3 (amended): the parse fallbacks guarantee exactly this much: a
located block that fails to parse, or no located block plus an unparseable
whole payload, yields exactly the safe default (status full_staff, reason
"Unable to parse flag status"); for a parsed (truthy) dict, a MISSING
status is backfilled to full_staff and a MISSING reason to "No active
proclamations", while PRESENT status and reason values — null or
out-of-enum included — are persisted verbatim, so the enum/non-null
guarantee holds only for the backfilled and safe-default cases. -/
theorem C3_amended_parse_fallbacks (loads : String → Option Json)
    (pyStr : Json → String) (now : String) (resp : Json) (items : List Json)
    (hitems : getContentItems resp = .ok items) :
    ((loopItems loads items = .error .decode ∨
        (loopItems loads items = .ok none ∧ loads (pyStr resp) = none)) →
      extract_flag_data loads pyStr now resp = .ok (safeDefault now))
    ∧ (safeDefault now).get "status" = some (.str "full_staff")
    ∧ (safeDefault now).get "reason" = some (.str "Unable to parse flag status")
    ∧ (∀ fs : List (String × Json), loopItems loads items = .ok (some (Json.obj fs)) →
        fs ≠ [] →
        ∃ gs, extract_flag_data loads pyStr now resp = .ok (Json.obj gs)
          ∧ ((Json.obj fs).get "status" = none →
              (Json.obj gs).get "status" = some (.str "full_staff"))
          ∧ ((Json.obj fs).get "reason" = none →
              (Json.obj gs).get "reason" = some (.str "No active proclamations"))
          ∧ (∀ v, (Json.obj fs).get "status" = some v →
              (Json.obj gs).get "status" = some v)
          ∧ (∀ v, (Json.obj fs).get "reason" = some v →
              (Json.obj gs).get "reason" = some v)) := by
  refine ⟨?_, rfl, rfl, ?_⟩
  · rintro (h | ⟨h1, h2⟩)
    · simp [extract_flag_data, extractBody, hitems, h]
    · simp [extract_flag_data, extractBody, hitems, h1, h2]
  · intro fs hloop hne
    obtain ⟨gs, heq, _, hstat, hreas, hps, hpr⟩ :=
      extract_obj_spec loads pyStr now resp items fs hitems hloop hne
    exact ⟨gs, heq, hstat, hreas, hps, hpr⟩

/-- Witness for C3 (amended): an unparseable response yields the safe
default; a record missing both fields gets both backfilled; a present
out-of-enum status is preserved verbatim. -/
theorem C3_amended_parse_fallbacks_witness :
    extract_flag_data (fun _ => none) pyStr0 "T0" respPlain = .ok (safeDefault "T0")
    ∧ (∃ gs, extract_flag_data loadsBare pyStr0 "T0" respBare = .ok (Json.obj gs)
        ∧ (Json.obj gs).get "status" = some (.str "full_staff")
        ∧ (Json.obj gs).get "reason" = some (.str "No active proclamations"))
    ∧ (∃ gs, extract_flag_data loadsBadStatus pyStr0 "T0" respBadStatus
          = .ok (Json.obj gs)
        ∧ (Json.obj gs).get "status" = some (.str "banana")) := by
  refine ⟨?_, ?_, ?_⟩
  · exact (C3_amended_parse_fallbacks (fun _ => none) pyStr0 "T0" respPlain _ rfl).1
      (Or.inr ⟨rfl, rfl⟩)
  · obtain ⟨gs, heq, hstat, hreas, _, _⟩ :=
      (C3_amended_parse_fallbacks loadsBare pyStr0 "T0" respBare _ rfl).2.2.2
        _ rfl (by decide)
    exact ⟨gs, heq, hstat rfl, hreas rfl⟩
  · obtain ⟨gs, heq, _, _, hps, _⟩ :=
      (C3_amended_parse_fallbacks loadsBadStatus pyStr0 "T0" respBadStatus _ rfl).2.2.2
        _ rfl (by decide)
    exact ⟨gs, heq, hps _ rfl⟩

/-- Shared helper: the recent-list update preserves dedup and the 10-cap. -/
theorem newRecent_wf (flag : Json) (R : List Json) (h1 : R.Nodup) (h2 : R.length ≤ 10) :
    (newRecent flag R).Nodup ∧ (newRecent flag R).length ≤ 10 := by
  unfold newRecent
  by_cases hc : pyTruthy (pidOf flag) = true ∧ pidOf flag ∉ R
  · rw [if_pos hc]
    constructor
    · exact List.Nodup.sublist (List.take_sublist 10 _)
        (List.nodup_cons.mpr ⟨hc.2, h1⟩)
    · rw [List.length_take]
      exact min_le_left _ _
  · rw [if_neg hc]
    exact ⟨h1, h2⟩

/-- Shared helper: a single index update preserves well-formedness. -/
theorem update_preserves_wf (flag idx : Json) (h : wfIndex idx) :
    ∃ idx2, update_index_data flag idx = .ok idx2 ∧ wfIndex idx2 := by
  obtain ⟨⟨fs, rfl⟩, ⟨A, hA⟩, ⟨R, hR, hnd, hlen⟩⟩ := h
  obtain ⟨gs, heq, hA2, hR2, hL2⟩ := update_index_data_fields flag fs A R hA hR
  obtain ⟨hnd2, hlen2⟩ := newRecent_wf flag R hnd hlen
  exact ⟨Json.obj gs, heq, ⟨gs, rfl⟩, ⟨_, hA2⟩, ⟨_, hR2, hnd2, hlen2⟩⟩

/-- C4: starting from any well-formed index, every sequence of index
updates (including repeated updates carrying the same proclamation_id)
succeeds and keeps the stored recent_proclamations list free of duplicate
entries and within 10 entries. -/
theorem C4_recent_bounded (flags : List Json) (idx : Json) (h : wfIndex idx) :
    ∃ idx2, apply_updates flags idx = .ok idx2
      ∧ ∃ R, idx2.get "recent_proclamations" = some (Json.arr R)
          ∧ R.Nodup ∧ R.length ≤ 10 := by
  induction flags generalizing idx with
  | nil => exact ⟨idx, rfl, h.2.2⟩
  | cons f rest ih =>
    obtain ⟨idx1, heq, hwf⟩ := update_preserves_wf f idx h
    obtain ⟨idx2, heq2, hres⟩ := ih idx1 hwf
    refine ⟨idx2, ?_, hres⟩
    simp [apply_updates, heq, heq2]

/-- Witness for C4: three updates with the same id "b" over the fresh
index stay deduplicated and within the cap. -/
theorem C4_recent_bounded_witness :
    ∃ idx2, apply_updates flagsC4 idxEmpty = .ok idx2
      ∧ ∃ R, idx2.get "recent_proclamations" = some (Json.arr R)
          ∧ R.Nodup ∧ R.length ≤ 10 :=
  C4_recent_bounded flagsC4 idxEmpty
    ⟨⟨_, rfl⟩, ⟨[], rfl⟩, ⟨[], rfl, List.nodup_nil, by decide⟩⟩

/-- C5 counterexample: the archive step writes the id-"x" record for 2025,
yet GetProclamationById "x" over the resulting store returns the OLDER
2024 record — its key contains "x" as a substring and is scanned first —
so the round trip does not return the written record verbatim. -/
theorem C5_counterexample :
    getObject stAfterC5 "proclamations/2025/x.json" = some recNewC5
    ∧ get_proclamation stAfterC5 (some "x") = (200, recOldC5)
    ∧ recOldC5 ≠ recNewC5 :=
  ⟨rfl, rfl, by decide⟩

/-- C5 (amended): the round trip holds when no other stored key contains
the proclamation_id as a substring: then GetProclamationById returns the
newly archived record verbatim with status 200. -/
theorem C5_amended_roundtrip (pyStr : Json → String) (st : Store)
    (putOk : String → Bool) (year : Nat) (pid : String) (rec : Json)
    (hrec : pidOf rec = Json.str pid)
    (hne : pid ≠ "")
    (hpystr : pyStr (Json.str pid) = pid)
    (hput : putOk ("proclamations/" ++ toString year ++ "/" ++ pid ++ ".json") = true)
    (hothers : ∀ kv ∈ st, substrB pid kv.1 = false) :
    get_proclamation (save_proclamation_run pyStr putOk year rec st) (some pid)
      = (200, rec) := by
  have hie : pid.isEmpty = false := by
    cases hb : pid.isEmpty
    · rfl
    · exact absurd ((String.isEmpty_iff pid).mp hb) hne
  have htr : pyTruthy (pidOf rec) = true := by
    rw [hrec]
    simp [pyTruthy, hie]
  have hsave : save_proclamation_run pyStr putOk year rec st
      = putObject st ("proclamations/" ++ toString year ++ "/" ++ pid ++ ".json") rec := by
    simp [save_proclamation_run, htr, hrec, hpystr, hput, pyTruthy, hie]
  have hkey : substrB pid ("proclamations/" ++ toString year ++ "/" ++ pid ++ ".json")
      = true := by
    unfold substrB
    have h := occursIn_sandwich pid.data
      ("proclamations/" ++ toString year ++ "/").data ".json".data
    simpa [String.data_append, List.append_assoc] using h
  have hpre : strStartsWith "proclamations/"
      ("proclamations/" ++ toString year ++ "/" ++ pid ++ ".json") = true := by
    unfold strStartsWith
    have h : ("proclamations/" ++ toString year ++ "/" ++ pid ++ ".json").data
        = "proclamations/".data ++ (toString year ++ "/" ++ pid ++ ".json").data := by
      simp [String.data_append, List.append_assoc]
    rw [h]
    exact listStartsWith_append _ _
  have hmem : (("proclamations/" ++ toString year ++ "/" ++ pid ++ ".json"), rec)
      ∈ listObjects (putObject st
          ("proclamations/" ++ toString year ++ "/" ++ pid ++ ".json") rec)
        "proclamations/" :=
    List.mem_filter.mpr ⟨mem_putObject_self st _ rec, hpre⟩
  have huniq : ∀ x ∈ listObjects (putObject st
        ("proclamations/" ++ toString year ++ "/" ++ pid ++ ".json") rec)
        "proclamations/",
      substrB pid x.1 = true →
      x = (("proclamations/" ++ toString year ++ "/" ++ pid ++ ".json"), rec) := by
    intro x hx hpx
    rcases mem_putObject st _ rec x (List.mem_filter.mp hx).1 with h1 | h1
    · exact h1
    · rw [hothers x h1] at hpx
      cases hpx
  have hfind : (listObjects (putObject st
        ("proclamations/" ++ toString year ++ "/" ++ pid ++ ".json") rec)
        "proclamations/").find? (fun kv => substrB pid kv.1)
      = some (("proclamations/" ++ toString year ++ "/" ++ pid ++ ".json"), rec) :=
    find?_of_unique _ _ _ hmem hkey huniq
  rw [hsave]
  simp [get_proclamation, hie, hfind]

/-- Witness for C5 (amended): archiving id "x" into an empty store and
reading it back verbatim. -/
theorem C5_amended_roundtrip_witness :
    get_proclamation (save_proclamation_run pyStr0 (fun _ => true) 2025 recNewC5 [])
      (some "x") = (200, recNewC5) :=
  C5_amended_roundtrip pyStr0 [] (fun _ => true) 2025 "x" recNewC5 rfl
    (by decide) rfl rfl (fun kv h => absurd h (List.not_mem_nil kv))

/-- C9: failure semantics of the three writes: a failing current.json put
aborts with 500 and no store change; with current.json written, a failing
index step aborts with 500 leaving only current.json written; with both
mandatory writes succeeding, a failing archive put is swallowed and the
run still reports success (200) with the mandatory writes in place. -/
theorem C9_archive_best_effort (loads : String → Option Json) (pyStr : Json → String)
    (now : String) (year : Nat) (bed : Option Json) (flag : Json) (st : Store)
    (hsearch : search_flag_proclamations loads pyStr now bed = some flag)
    (htr : pyTruthy flag = true) :
    (∀ putOk : String → Bool, putOk "current.json" = false →
      lambda_handler_run loads pyStr now putOk year bed st = (500, st))
    ∧ (∀ putOk : String → Bool, putOk "current.json" = true →
        putOk "index.json" = false →
        lambda_handler_run loads pyStr now putOk year bed st
          = (500, putObject st "current.json" flag))
    ∧ (∀ (putOk : String → Bool) (p : String) (idx2 : Json),
        putOk "current.json" = true → putOk "index.json" = true →
        pidOf flag = Json.str p → p ≠ "" → pyStr (Json.str p) = p →
        putOk ("proclamations/" ++ toString year ++ "/" ++ p ++ ".json") = false →
        isHalfStaff flag = true →
        update_index_data flag (read_index (putObject st "current.json" flag))
          = .ok idx2 →
        lambda_handler_run loads pyStr now putOk year bed st
          = (200, putObject (putObject st "current.json" flag) "index.json" idx2)) := by
  refine ⟨?_, ?_, ?_⟩
  · intro putOk hcur
    simp [lambda_handler_run, hsearch, htr, hcur]
  · intro putOk hcur hidx
    cases hud : update_index_data flag (read_index (putObject st "current.json" flag)) with
    | error e =>
      simp [lambda_handler_run, hsearch, htr, hcur, update_index_run, hud]
    | ok idx2 =>
      simp [lambda_handler_run, hsearch, htr, hcur, update_index_run, hud, hidx]
  · intro putOk p idx2 hcur hidx hpid hp hpystr harch hhalf hud
    have hie : p.isEmpty = false := by
      cases hb : p.isEmpty
      · rfl
      · exact absurd ((String.isEmpty_iff p).mp hb) hp
    have htrp : pyTruthy (pidOf flag) = true := by
      rw [hpid]
      simp [pyTruthy, hie]
    simp [lambda_handler_run, hsearch, htr, hcur, update_index_run, hud, hidx, hhalf,
      save_proclamation_run, htrp, hpid, hpystr, harch]

/-- Witness for C9 at the sample record: all puts failing gives 500 on the
untouched store; only current.json succeeding gives 500 with just that
write; both mandatory writes succeeding with the archive put failing still
gives 200. -/
theorem C9_archive_best_effort_witness :
    lambda_handler_run sampleLoads pyStr0 "T0" (fun _ => false) 2025 (some sampleResp) []
      = (500, [])
    ∧ lambda_handler_run sampleLoads pyStr0 "T0" (fun k => k == "current.json") 2025
        (some sampleResp) [] = (500, putObject [] "current.json" sampleRec)
    ∧ lambda_handler_run sampleLoads pyStr0 "T0"
        (fun k => k == "current.json" || k == "index.json") 2025 (some sampleResp) []
        = (200, putObject (putObject [] "current.json" sampleRec)
            "index.json" idxAfterC9) := by
  obtain ⟨h1, h2, h3⟩ := C9_archive_best_effort sampleLoads pyStr0 "T0" 2025
    (some sampleResp) sampleRec [] rfl rfl
  exact ⟨h1 _ rfl, h2 _ rfl rfl,
    h3 _ "b" idxAfterC9 rfl rfl rfl (by decide) rfl rfl rfl rfl⟩

/-- C10: a half_staff record with a falsy id (absent, null or empty) is
treated as inactive everywhere except current.json: the index update
clears active_proclamations and leaves recent_proclamations unchanged, the
archive step writes nothing, and current.json still stores the record,
whose status is half_staff. -/
theorem C10_half_staff_without_id (flag : Json) (fs : List (String × Json))
    (A R : List Json) (st st2 : Store) (pyStr : Json → String)
    (putOk : String → Bool) (year : Nat) (loads : String → Option Json)
    (now : String) (bed : Option Json)
    (hs : isHalfStaff flag = true)
    (hp : pyTruthy (pidOf flag) = false)
    (hA : (Json.obj fs).get "active_proclamations" = some (.arr A))
    (hR : (Json.obj fs).get "recent_proclamations" = some (.arr R))
    (hsearch : search_flag_proclamations loads pyStr now bed = some flag)
    (hcur : putOk "current.json" = true) :
    (∃ gs, update_index_data flag (Json.obj fs) = .ok (Json.obj gs)
       ∧ (Json.obj gs).get "active_proclamations" = some (.arr [])
       ∧ (Json.obj gs).get "recent_proclamations" = some (.arr R))
    ∧ save_proclamation_run pyStr putOk year flag st = st
    ∧ getObject (lambda_handler_run loads pyStr now putOk year bed st2).2
        "current.json" = some flag
    ∧ flag.get "status" = some (Json.str "half_staff") := by
  have hstat : flag.get "status" = some (Json.str "half_staff") := by
    unfold isHalfStaff at hs
    cases hg : flag.get "status" with
    | none =>
      simp only [hg] at hs
      simp at hs
    | some v =>
      cases v with
      | str s =>
        simp only [hg] at hs
        simp at hs
        simp [hg, hs]
      | null =>
        simp only [hg] at hs
        simp at hs
      | bool b =>
        simp only [hg] at hs
        simp at hs
      | num n =>
        simp only [hg] at hs
        simp at hs
      | arr xs =>
        simp only [hg] at hs
        simp at hs
      | obj gs2 =>
        simp only [hg] at hs
        simp at hs
  obtain ⟨gs, heq, hA2, hR2, hL2⟩ := update_index_data_fields flag fs A R hA hR
  have hna : newActive flag A = [] := by
    rw [newActive, if_neg]
    simp [hp]
  have hnr : newRecent flag R = R := by
    rw [newRecent, if_neg]
    simp [hp]
  have hio : ("current.json" : String) ≠ "index.json" := by decide
  have h1 : pyTruthy flag = true := pyTruthy_of_get flag "status" _ hstat
  refine ⟨⟨gs, heq, by rw [hA2, hna], by rw [hR2, hnr]⟩,
    by simp [save_proclamation_run, hp], ?_, hstat⟩
  cases hud : update_index_data flag (read_index (putObject st2 "current.json" flag)) with
  | error e =>
    simp [lambda_handler_run, hsearch, h1, hcur, update_index_run, hud,
      getObject_putObject_same]
  | ok idx2 =>
    by_cases hpi : putOk "index.json" = true
    · simp [lambda_handler_run, hsearch, h1, hcur, update_index_run, hud, hpi, hs,
        save_proclamation_run, hp]
      rw [getObject_putObject_ne _ _ _ _ hio, getObject_putObject_same]
    · simp [lambda_handler_run, hsearch, h1, hcur, update_index_run, hud, hpi,
        getObject_putObject_same]

/-- Witness for C10 at a record with an explicit null id over the fresh
index in an empty store. -/
theorem C10_half_staff_without_id_witness :
    (∃ gs, update_index_data recNullPid idxEmpty = .ok (Json.obj gs)
       ∧ (Json.obj gs).get "active_proclamations" = some (.arr [])
       ∧ (Json.obj gs).get "recent_proclamations" = some (.arr []))
    ∧ save_proclamation_run pyStr0 (fun _ => true) 2025 recNullPid [] = []
    ∧ getObject (lambda_handler_run loadsNullPid pyStr0 "T0" (fun _ => true) 2025
        (some respNullPid) []).2 "current.json" = some recNullPid
    ∧ recNullPid.get "status" = some (Json.str "half_staff") :=
  C10_half_staff_without_id recNullPid
    [("active_proclamations", Json.arr []), ("recent_proclamations", Json.arr [])]
    [] [] [] [] pyStr0 (fun _ => true) 2025 loadsNullPid "T0" (some respNullPid)
    rfl rfl rfl rfl rfl rfl

end USFlag
